import Mathlib

/-!
# automlNaturalLanguagePredict.js

A shallow embedding of `samples/automl/automlNaturalLanguagePredict.js`: the
function `predict`, the two promise callbacks it installs, and the command
handler that calls it with the parsed options.

The program's collaborators (the client library, `fs`, the remote service and
the console's rendering of non-string values) are the fields of `Runtime`.
A run is described by the events it produces, in order, and by how it
completes (normally, or by throwing a value).
-/

namespace AutomlPredict

/-! ## JavaScript values -/

/-- The two ways in which the engine itself raises a `TypeError` in this program. -/
inductive TypeErrorKind where
  /-- A property with this key was read from `undefined` or `null`. -/
  | readProperty (key : String)
  /-- A `for ... of` loop was started over a value that is not iterable. -/
  | notIterable
  deriving DecidableEq, Repr

/-- JavaScript values as far as the program can tell them apart. A number is
carried by its decimal text: the program never computes with a number, it only
hands it to `console.log`. -/
inductive JsVal where
  | undefined
  | null
  | bool (b : Bool)
  | num (text : String)
  | str (s : String)
  | arr (items : List JsVal)
  | obj (fields : List (String × JsVal))
  | typeError (kind : TypeErrorKind)

/-- Property read `v[key]` / `v.key`. Reading from `undefined` or `null`
throws; an object yields the first field with that key; an array or a string
yields its first element for the key `"0"`. Every other read yields
`undefined`. The keys the program reads are `0`, `payload`, `displayName`,
`classification`, `score` and the option names, none of which is a built-in
property of any value. -/
def getProp (v : JsVal) (key : String) : Except JsVal JsVal :=
  match v with
  | .undefined => .error (.typeError (.readProperty key))
  | .null => .error (.typeError (.readProperty key))
  | .obj fields => .ok ((fields.lookup key).getD .undefined)
  | .arr items => .ok (if key = "0" then items.headD .undefined else .undefined)
  | .str s =>
    .ok (if key = "0" then
      match s.toList with
      | [] => .undefined
      | c :: _ => .str (String.singleton c)
    else .undefined)
  | _ => .ok .undefined

/-- The sequence a `for ... of` loop runs over: the elements of an array, the
characters of a string; any other value is not iterable. -/
def iterate (v : JsVal) : Except JsVal (List JsVal) :=
  match v with
  | .arr items => .ok items
  | .str s => .ok (s.toList.map fun c => JsVal.str (String.singleton c))
  | _ => .error (.typeError .notIterable)

/-! ## Requests, promises, events -/

/-- The value of `payload.textSnippet`. -/
structure TextSnippet where
  content : String
  mimeType : String
  deriving DecidableEq, Repr

/-- The value of `payload`. -/
structure Payload where
  textSnippet : TextSnippet
  deriving DecidableEq, Repr

/-- The argument of `client.predict`: `{name, payload, params}`; `params` is
an object, given by its fields. -/
structure PredictRequest where
  name : JsVal
  payload : Payload
  params : List (String × JsVal)

/-- A settled promise. -/
inductive Settled where
  | fulfilled (value : JsVal)
  | rejected (reason : JsVal)

/-- The two callbacks of the promise chain. -/
inductive Handler where
  /-- The callback given to `.then`. -/
  | onFulfilled
  /-- The callback given to `.catch`. -/
  | onRejected
  deriving DecidableEq, Repr

/-- What a run does that can be seen from outside. -/
inductive Event where
  /-- The call `client.predict(request)`. -/
  | remoteCall (request : PredictRequest)
  /-- The promise chain invokes a callback. -/
  | enter (handler : Handler)
  /-- One `console.log` call, with the text it writes before the line end. -/
  | stdout (line : String)
  /-- One `console.error` call, with the value it is given. -/
  | stderr (value : JsVal)

/-- The collaborators of the program. `modelPath p r m` is the outcome of
lines 42-49: loading the library, constructing the client and the call
`client.modelPath(p, r, m)`, each of which may throw; what the call returns is
left to the library. `readFileSync p` is `fs.readFileSync(p, 'utf8')`, which
throws when the file cannot be read, `remotePredict` is how the promise
returned by `client.predict` settles, and `inspect` is the text `console.log`
writes for an argument that is not a string. -/
structure Runtime where
  modelPath : JsVal → JsVal → JsVal → Except JsVal JsVal
  readFileSync : JsVal → Except JsVal String
  remotePredict : PredictRequest → Settled
  inspect : JsVal → String

/-! ## Computations with events and exceptions -/

/-- A computation: the events produced, in order, and the completion, a
returned value or a thrown one. Events produced before a throw are kept. -/
structure Eff (α : Type) where
  events : List Event
  result : Except JsVal α

namespace Eff

/-- Return without any event. -/
def ret {α : Type} (a : α) : Eff α := ⟨[], .ok a⟩

/-- Run `m`, then `f` on its value; a throw of `m` ends the computation. -/
def andThen {α β : Type} (m : Eff α) (f : α → Eff β) : Eff β :=
  match m.result with
  | .error e => ⟨m.events, .error e⟩
  | .ok a => ⟨m.events ++ (f a).events, (f a).result⟩

instance : Monad Eff where
  pure := ret
  bind := andThen

/-- Produce one event. -/
def emit (e : Event) : Eff Unit := ⟨[e], .ok ()⟩

/-- An evaluation step that produces no event but may throw. -/
def lift {α : Type} (r : Except JsVal α) : Eff α := ⟨[], r⟩

end Eff

/-- The text of `console.log(first, ...rest)` for a string `first` without `%`
directives: the arguments joined by one space, a string argument as it is and
any other argument as `inspect` renders it. -/
def formatLog (inspect : JsVal → String) (first : String) (rest : List JsVal) : String :=
  rest.foldl (fun acc v => acc ++ " " ++ (match v with | .str s => s | w => inspect w)) first

/-- The call `console.log(first, ...rest)`. -/
def consoleLog (rt : Runtime) (first : String) (rest : List JsVal) : Eff Unit :=
  Eff.emit (.stdout (formatLog rt.inspect first rest))

/-- The call `console.error(value)`. -/
def consoleError (value : JsVal) : Eff Unit :=
  Eff.emit (.stderr value)

/-- The loop `for (let x of items) body(x)` over the elements already
obtained from the iterator; a throw of the body ends the loop. -/
def forOf (body : JsVal → Eff Unit) : List JsVal → Eff Unit
  | [] => pure ()
  | x :: rest => do
    body x
    forOf body rest

/-- The method `p.then(f)`: a fulfilled `p` invokes `f` on its value, and the
new promise is fulfilled with what `f` returns or rejected with what `f`
throws; a rejected `p` is passed on and `f` is not invoked. -/
def promiseThen (p : Settled) (f : JsVal → Eff JsVal) : Eff Settled :=
  match p with
  | .rejected e => pure (.rejected e)
  | .fulfilled v =>
    ⟨Event.enter .onFulfilled :: (f v).events,
      .ok (match (f v).result with
        | .ok w => .fulfilled w
        | .error e => .rejected e)⟩

/-- The method `p.catch(g)`: a rejected `p` invokes `g` on the reason, and the
new promise is fulfilled with what `g` returns or rejected with what `g`
throws; a fulfilled `p` is passed on and `g` is not invoked. -/
def promiseCatch (p : Settled) (g : JsVal → Eff JsVal) : Eff Settled :=
  match p with
  | .fulfilled v => pure (.fulfilled v)
  | .rejected e =>
    ⟨Event.enter .onRejected :: (g e).events,
      .ok (match (g e).result with
        | .ok w => .fulfilled w
        | .error e' => .rejected e')⟩

/-! ## The program -/

/-- The body of the loop (lines 69-70). -/
def printResult (rt : Runtime) (result : JsVal) : Eff Unit := do
  let displayName ← Eff.lift (getProp result "displayName")
  consoleLog rt "Predicted class name: " [displayName]
  let classification ← Eff.lift (getProp result "classification")
  let score ← Eff.lift (getProp classification "score")
  consoleLog rt "Predicted class score: " [score]

/-- The callback given to `.then` (lines 66-72). -/
def onResponses (rt : Runtime) (responses : JsVal) : Eff JsVal := do
  consoleLog rt "Prediction results:" []
  let first ← Eff.lift (getProp responses "0")
  let payload ← Eff.lift (getProp first "payload")
  let items ← Eff.lift (iterate payload)
  forOf (printResult rt) items
  pure .undefined

/-- The callback given to `.catch` (lines 73-75). -/
def onError (err : JsVal) : Eff JsVal := do
  consoleError err
  pure .undefined

/-- The request built at lines 55-65 from the model path and the file text. -/
def buildRequest (modelFullId : JsVal) (snippet : String) : PredictRequest :=
  { name := modelFullId
    payload := { textSnippet := { content := snippet, mimeType := "text/plain" } }
    params := [] }

/-- The function `predict` (lines 40-77), followed until the promise chain
has run. The completion is that of the call itself: a throw of a callback
settles the chain and never reaches the caller. -/
def predict (rt : Runtime) (projectId computeRegion modelId filePath : JsVal) : Eff Unit := do
  let modelFullId ← Eff.lift (rt.modelPath projectId computeRegion modelId)
  let snippet ← Eff.lift (rt.readFileSync filePath)
  let request := buildRequest modelFullId snippet
  Eff.emit (.remoteCall request)
  let settled ← promiseThen (rt.remotePredict request) (onResponses rt)
  let _ ← promiseCatch settled onError
  pure ()

/-- A call `predict(...args)`: the four parameters are bound to the first four
arguments, a missing argument is `undefined` and further arguments are bound to
nothing. -/
def callPredict (rt : Runtime) (args : List JsVal) : Eff Unit :=
  predict rt (args.getD 0 .undefined) (args.getD 1 .undefined)
    (args.getD 2 .undefined) (args.getD 3 .undefined)

/-- The handler of the `predict` command (lines 120-128), on the options
object of the argument parser. -/
def predictCommand (rt : Runtime) (opts : JsVal) : Eff Unit := do
  let projectId ← Eff.lift (getProp opts "projectId")
  let computeRegion ← Eff.lift (getProp opts "computeRegion")
  let modelId ← Eff.lift (getProp opts "modelId")
  let filePath ← Eff.lift (getProp opts "filePath")
  let scoreThreshold ← Eff.lift (getProp opts "scoreThreshold")
  callPredict rt [projectId, computeRegion, modelId, filePath, scoreThreshold]

/-- The two environment variables the option table reads. -/
structure ProcessEnv where
  REGION_NAME : Option String
  PROJECT_ID : Option String

/-- The value of `process.env.X`. -/
def envValue : Option String → JsVal
  | none => .undefined
  | some s => .str s

/-- The defaults of the option table (lines 81-119): `modelId` has none. -/
def optionDefaults (env : ProcessEnv) : List (String × JsVal) :=
  [("computeRegion", envValue env.REGION_NAME),
   ("filePath", .str "./resources/test.txt"),
   ("projectId", envValue env.PROJECT_ID),
   ("scoreThreshold", .str "0.5")]

/-- The options object the handler receives, as far as the handler reads it:
the options given on the command line under their long names, as the argument
parser has typed them, before the defaults. An option that is neither given
nor has a default is absent, and reads as `undefined`. -/
def parsedOptions (env : ProcessEnv) (given : List (String × JsVal)) : JsVal :=
  .obj (given ++ optionDefaults env)

/-! ## Observations of a run -/

/-- The requests of the remote calls, in order. -/
def remoteCalls : List Event → List PredictRequest
  | [] => []
  | .remoteCall r :: rest => r :: remoteCalls rest
  | _ :: rest => remoteCalls rest

/-- The lines written by `console.log`, in order. -/
def stdoutLines : List Event → List String
  | [] => []
  | .stdout l :: rest => l :: stdoutLines rest
  | _ :: rest => stdoutLines rest

/-- The values logged by `console.error`, in order. -/
def stderrValues : List Event → List JsVal
  | [] => []
  | .stderr v :: rest => v :: stderrValues rest
  | _ :: rest => stderrValues rest

/-- The callbacks invoked, in order. -/
def handlersRun : List Event → List Handler
  | [] => []
  | .enter h :: rest => h :: handlersRun rest
  | _ :: rest => handlersRun rest

/-! ## Reading a result -/

/-- The value of `result.displayName`, `undefined` when the read throws. -/
def displayNameOf (result : JsVal) : JsVal :=
  match getProp result "displayName" with
  | .ok v => v
  | .error _ => .undefined

/-- The value of `result.classification.score`, `undefined` when a read throws. -/
def scoreOf (result : JsVal) : JsVal :=
  match getProp result "classification" with
  | .ok c =>
    match getProp c "score" with
    | .ok s => s
    | .error _ => .undefined
  | .error _ => .undefined

/-- A well-formed result: `displayName` is a string and
`classification.score` is a number. -/
def wellFormed (result : JsVal) : Bool :=
  match displayNameOf result, scoreOf result with
  | .str _, .num _ => true
  | _, _ => false

/-- The label of a well-formed result. -/
def labelOf (result : JsVal) : String :=
  match displayNameOf result with
  | .str s => s
  | _ => ""

/-- The two events of the loop body on a well-formed result. -/
def resultEvents (rt : Runtime) (result : JsVal) : List Event :=
  [.stdout ("Predicted class name:  " ++ labelOf result),
   .stdout ("Predicted class score:  " ++ rt.inspect (scoreOf result))]

/-- The two lines of the loop body on a well-formed result. -/
def resultLines (rt : Runtime) (result : JsVal) : List String :=
  ["Predicted class name:  " ++ labelOf result,
   "Predicted class score:  " ++ rt.inspect (scoreOf result)]

/-- A list of events that are all `console.log` calls. -/
def OnlyStdout (evs : List Event) : Prop := ∀ e ∈ evs, ∃ l, e = Event.stdout l

/-! ## A runtime for the examples -/

/-- Text of a primitive value, for the example runtime. -/
def demoText : JsVal → String
  | .str s => s
  | .num t => t
  | .null => "null"
  | .bool true => "true"
  | .bool false => "false"
  | _ => "undefined"

/-- An example runtime: a model path that throws on an absent or empty model
id, one readable file, `./resources/test.txt`, and a remote call that settles
as given. -/
def demoRuntime (settled : Settled) : Runtime :=
  { modelPath := fun p r m =>
      match m with
      | .undefined => .error (.obj [("name", .str "TypeError")])
      | .str "" => .error (.obj [("name", .str "TypeError")])
      | _ => .ok (.str
          ("projects/" ++ demoText p ++ "/locations/" ++ demoText r ++ "/models/" ++ demoText m))
    readFileSync := fun p =>
      match p with
      | .str "./resources/test.txt" => .ok "I love this product"
      | _ => .error (.obj [("code", .str "ENOENT")])
    remotePredict := fun _ => settled
    inspect := demoText }

/-- The result `{displayName: "Positive", classification: {score: 0.92}}`. -/
def positiveResult : JsVal :=
  .obj [("displayName", .str "Positive"), ("classification", .obj [("score", .num "0.92")])]

/-- The result `{displayName: "Negative", classification: {score: 0.08}}`. -/
def negativeResult : JsVal :=
  .obj [("displayName", .str "Negative"), ("classification", .obj [("score", .num "0.08")])]

/-- The result `{displayName: "Neutral"}`, without classification. -/
def unclassifiedResult : JsVal :=
  .obj [("displayName", .str "Neutral")]

/-- The response `[{payload: results}]`. -/
def responsesOf (results : List JsVal) : JsVal :=
  .arr [.obj [("payload", .arr results)]]

/-- The model path of the example runtime for project 42, region
`us-central1` and model `TCN1`. -/
def demoRef : JsVal := .str "projects/42/locations/us-central1/models/TCN1"

/-- The error the example runtime throws when the model path cannot be built. -/
def demoPathError : JsVal := .obj [("name", .str "TypeError")]

/-- The error the example runtime throws when the file cannot be read. -/
def demoReadError : JsVal := .obj [("code", .str "ENOENT")]

/-- The path of the readable file of the example runtime. -/
def demoPath : JsVal := .str "./resources/test.txt"

/-- An example environment with both variables set. -/
def demoEnv : ProcessEnv :=
  { REGION_NAME := some "us-central1", PROJECT_ID := some "42" }

/-! ## Lemmas on computations and on the program -/

theorem Eff.bind_eq {α β : Type} (m : Eff α) (f : α → Eff β) :
    (m >>= f) = Eff.andThen m f := rfl

theorem Eff.pure_eq {α : Type} (a : α) : (pure a : Eff α) = Eff.ret a := rfl

theorem Eff.andThen_lift_ok {α β : Type} (a : α) (f : α → Eff β) :
    Eff.andThen (Eff.lift (.ok a)) f = f a := by
  simp [Eff.andThen, Eff.lift]

theorem Eff.andThen_lift_error {α β : Type} (e : JsVal) (f : α → Eff β) :
    Eff.andThen (Eff.lift (.error e)) f = ⟨[], .error e⟩ := by
  simp [Eff.andThen, Eff.lift]

theorem Eff.andThen_emit {β : Type} (ev : Event) (f : Unit → Eff β) :
    Eff.andThen (Eff.emit ev) f = ⟨ev :: (f ()).events, (f ()).result⟩ := by
  simp [Eff.andThen, Eff.emit]

theorem Eff.andThen_mk_ok {α β : Type} (evs : List Event) (a : α) (f : α → Eff β) :
    Eff.andThen ⟨evs, .ok a⟩ f = ⟨evs ++ (f a).events, (f a).result⟩ := rfl

theorem Eff.andThen_mk_error {α β : Type} (evs : List Event) (e : JsVal) (f : α → Eff β) :
    Eff.andThen ⟨evs, .error e⟩ f = ⟨evs, .error e⟩ := rfl

theorem stdoutLines_append (a b : List Event) :
    stdoutLines (a ++ b) = stdoutLines a ++ stdoutLines b := by
  induction a with
  | nil => rfl
  | cons e rest ih => cases e <;> simp [stdoutLines, ih]

theorem stderrValues_append (a b : List Event) :
    stderrValues (a ++ b) = stderrValues a ++ stderrValues b := by
  induction a with
  | nil => rfl
  | cons e rest ih => cases e <;> simp [stderrValues, ih]

theorem handlersRun_append (a b : List Event) :
    handlersRun (a ++ b) = handlersRun a ++ handlersRun b := by
  induction a with
  | nil => rfl
  | cons e rest ih => cases e <;> simp [handlersRun, ih]

theorem remoteCalls_append (a b : List Event) :
    remoteCalls (a ++ b) = remoteCalls a ++ remoteCalls b := by
  induction a with
  | nil => rfl
  | cons e rest ih => cases e <;> simp [remoteCalls, ih]

/-- What a well-formed result is, in terms of the property reads. -/
theorem wellFormed_reads {result : JsVal} (h : wellFormed result = true) :
    ∃ c, getProp result "displayName" = .ok (.str (labelOf result)) ∧
      getProp result "classification" = .ok c ∧
      getProp c "score" = .ok (scoreOf result) := by
  unfold wellFormed at h
  unfold labelOf
  unfold displayNameOf scoreOf at *
  cases hd : getProp result "displayName" with
  | error e => simp [hd] at h
  | ok d =>
    cases hc : getProp result "classification" with
    | error e => simp [hd, hc] at h
    | ok c =>
      cases hs : getProp c "score" with
      | error e => simp [hd, hc, hs] at h
      | ok s =>
        refine ⟨c, ?_, rfl, ?_⟩
        · simp only [hd, hc, hs] at h
          cases d <;> simp_all
        · simp [hs]

/-- The loop body on a well-formed result prints its two lines and returns. -/
theorem printResult_wellFormed (rt : Runtime) {result : JsVal}
    (h : wellFormed result = true) :
    printResult rt result = ⟨resultEvents rt result, .ok ()⟩ := by
  obtain ⟨c, hd, hc, hs⟩ := wellFormed_reads h
  have hnum : ∃ t, scoreOf result = .num t := by
    unfold wellFormed at h
    cases hsv : scoreOf result <;> cases hdv : displayNameOf result <;> simp_all
  obtain ⟨t, ht⟩ := hnum
  simp [printResult, hd, hc, hs, ht, Eff.bind_eq, Eff.andThen_lift_ok, consoleLog,
    Eff.andThen_emit, Eff.emit, Eff.andThen_mk_ok, formatLog, resultEvents]

/-- The loop over well-formed results followed by further elements prints the
lines of the well-formed ones and goes on with the rest. -/
theorem forOf_wellFormed_append (rt : Runtime) (good rest : List JsVal)
    (h : ∀ r ∈ good, wellFormed r = true) :
    forOf (printResult rt) (good ++ rest) =
      ⟨good.flatMap (resultEvents rt) ++ (forOf (printResult rt) rest).events,
        (forOf (printResult rt) rest).result⟩ := by
  induction good with
  | nil => simp
  | cons r good ih =>
    have hr : wellFormed r = true := h r (List.mem_cons_self _ _)
    have hg : ∀ x ∈ good, wellFormed x = true := fun x hx => h x (List.mem_cons_of_mem _ hx)
    simp [forOf, Eff.bind_eq, printResult_wellFormed rt hr, Eff.andThen_mk_ok, ih hg]

/-- The loop over well-formed results prints their lines and returns. -/
theorem forOf_wellFormed (rt : Runtime) (results : List JsVal)
    (h : ∀ r ∈ results, wellFormed r = true) :
    forOf (printResult rt) results = ⟨results.flatMap (resultEvents rt), .ok ()⟩ := by
  have := forOf_wellFormed_append rt results [] h
  simpa [forOf, Eff.pure_eq, Eff.ret] using this

/-- The callback of `.then` on a response whose first element has an array as
payload: the header, then the loop. -/
theorem onResponses_of_payload (rt : Runtime) {responses first : JsVal} {items : List JsVal}
    (hfirst : getProp responses "0" = .ok first)
    (hpayload : getProp first "payload" = .ok (.arr items)) :
    onResponses rt responses =
      ⟨.stdout "Prediction results:" :: (forOf (printResult rt) items).events,
        match (forOf (printResult rt) items).result with
        | .ok _ => .ok .undefined
        | .error e => .error e⟩ := by
  simp only [onResponses, Eff.bind_eq, consoleLog, formatLog, List.foldl_nil, Eff.andThen_emit,
    hfirst, hpayload, Eff.andThen_lift_ok, iterate]
  cases hres : (forOf (printResult rt) items).result with
  | ok u => simp [Eff.andThen, hres, Eff.pure_eq, Eff.ret]
  | error e => simp [Eff.andThen, hres]

/-- The run of `predict` when the file is read and the remote call rejects. -/
theorem predict_of_rejected (rt : Runtime) (projectId computeRegion modelId filePath : JsVal)
    {ref : JsVal} {text : String} {e : JsVal}
    (hpath : rt.modelPath projectId computeRegion modelId = .ok ref)
    (hread : rt.readFileSync filePath = .ok text)
    (hrej : rt.remotePredict (buildRequest ref text)
      = .rejected e) :
    predict rt projectId computeRegion modelId filePath =
      ⟨[.remoteCall (buildRequest ref text),
        .enter .onRejected, .stderr e], .ok ()⟩ := by
  simp [predict, hpath, hread, hrej, Eff.bind_eq, Eff.andThen_lift_ok, Eff.andThen_emit, promiseThen,
    promiseCatch, Eff.pure_eq, Eff.ret, Eff.andThen_mk_ok, onError, consoleError, Eff.emit]

/-- The run of `predict` when the file is read and the remote call resolves:
the callback of `.then` runs, and the callback of `.catch` runs after it when
it throws. -/
theorem predict_of_fulfilled (rt : Runtime) (projectId computeRegion modelId filePath : JsVal)
    {ref : JsVal} {text : String} {v : JsVal}
    (hpath : rt.modelPath projectId computeRegion modelId = .ok ref)
    (hread : rt.readFileSync filePath = .ok text)
    (hres : rt.remotePredict (buildRequest ref text)
      = .fulfilled v) :
    predict rt projectId computeRegion modelId filePath =
      ⟨.remoteCall (buildRequest ref text) ::
        .enter .onFulfilled :: ((onResponses rt v).events ++
          match (onResponses rt v).result with
          | .ok _ => []
          | .error e => [.enter .onRejected, .stderr e]), .ok ()⟩ := by
  cases hr : (onResponses rt v).result with
  | ok w =>
    simp [predict, hpath, hread, hres, hr, Eff.bind_eq, Eff.andThen_lift_ok, Eff.andThen_emit,
      promiseThen, promiseCatch, Eff.pure_eq, Eff.ret, Eff.andThen_mk_ok]
  | error e =>
    simp [predict, hpath, hread, hres, hr, Eff.bind_eq, Eff.andThen_lift_ok, Eff.andThen_emit,
      promiseThen, promiseCatch, Eff.pure_eq, Eff.ret, Eff.andThen_mk_ok, onError,
      consoleError, Eff.emit]

/-- The run of `predict` when the model path is built and the file cannot be
read. -/
theorem predict_of_read_error (rt : Runtime) (projectId computeRegion modelId filePath : JsVal)
    {ref e : JsVal} (hpath : rt.modelPath projectId computeRegion modelId = .ok ref)
    (hread : rt.readFileSync filePath = .error e) :
    predict rt projectId computeRegion modelId filePath = ⟨[], .error e⟩ := by
  simp [predict, hpath, hread, Eff.bind_eq, Eff.andThen_lift_ok, Eff.andThen_lift_error]

/-- The run of `predict` when building the model path throws: the read is not
reached. -/
theorem predict_of_path_error (rt : Runtime) (projectId computeRegion modelId filePath : JsVal)
    {e : JsVal} (hpath : rt.modelPath projectId computeRegion modelId = .error e) :
    predict rt projectId computeRegion modelId filePath = ⟨[], .error e⟩ := by
  simp [predict, hpath, Eff.bind_eq, Eff.andThen_lift_error]

theorem OnlyStdout.append {a b : List Event} (ha : OnlyStdout a) (hb : OnlyStdout b) :
    OnlyStdout (a ++ b) := by
  intro e he
  rcases List.mem_append.mp he with h | h
  · exact ha e h
  · exact hb e h

theorem OnlyStdout.observations {evs : List Event} (h : OnlyStdout evs) :
    remoteCalls evs = [] ∧ stderrValues evs = [] ∧ handlersRun evs = [] := by
  induction evs with
  | nil => exact ⟨rfl, rfl, rfl⟩
  | cons e rest ih =>
    obtain ⟨l, rfl⟩ := h e (List.mem_cons_self _ _)
    have := ih (fun x hx => h x (List.mem_cons_of_mem _ hx))
    simpa [remoteCalls, stderrValues, handlersRun] using this

theorem OnlyStdout.andThen {α β : Type} {m : Eff α} {f : α → Eff β}
    (hm : OnlyStdout m.events) (hf : ∀ a, OnlyStdout (f a).events) :
    OnlyStdout (Eff.andThen m f).events := by
  unfold Eff.andThen
  cases hres : m.result with
  | error x => simpa using hm
  | ok a => simpa using hm.append (hf a)

theorem OnlyStdout.lift {α : Type} (r : Except JsVal α) : OnlyStdout (Eff.lift r).events := by
  intro e he
  simp [Eff.lift] at he

theorem OnlyStdout.ret {α : Type} (a : α) : OnlyStdout (pure a : Eff α).events := by
  intro e he
  simp [Eff.pure_eq, Eff.ret] at he

theorem OnlyStdout.consoleLog (rt : Runtime) (first : String) (rest : List JsVal) :
    OnlyStdout (consoleLog rt first rest).events := by
  intro e he
  exact ⟨_, by simpa [AutomlPredict.consoleLog, Eff.emit] using he⟩

/-- The loop body only writes to stdout. -/
theorem printResult_onlyStdout (rt : Runtime) (result : JsVal) :
    OnlyStdout (printResult rt result).events := by
  unfold printResult
  simp only [Eff.bind_eq]
  refine OnlyStdout.andThen (OnlyStdout.lift _) fun d => ?_
  refine OnlyStdout.andThen (OnlyStdout.consoleLog _ _ _) fun _ => ?_
  refine OnlyStdout.andThen (OnlyStdout.lift _) fun c => ?_
  refine OnlyStdout.andThen (OnlyStdout.lift _) fun s => ?_
  exact OnlyStdout.consoleLog _ _ _

/-- The loop only writes to stdout. -/
theorem forOf_onlyStdout (rt : Runtime) (items : List JsVal) :
    OnlyStdout (forOf (printResult rt) items).events := by
  induction items with
  | nil => exact OnlyStdout.ret ()
  | cons r rest ih =>
    simp only [forOf, Eff.bind_eq]
    exact OnlyStdout.andThen (printResult_onlyStdout rt r) fun _ => ih

/-- The callback of `.then` only writes to stdout, whatever the response is. -/
theorem onResponses_onlyStdout (rt : Runtime) (responses : JsVal) :
    OnlyStdout (onResponses rt responses).events := by
  unfold onResponses
  simp only [Eff.bind_eq]
  refine OnlyStdout.andThen (OnlyStdout.consoleLog _ _ _) fun _ => ?_
  refine OnlyStdout.andThen (OnlyStdout.lift _) fun first => ?_
  refine OnlyStdout.andThen (OnlyStdout.lift _) fun payload => ?_
  refine OnlyStdout.andThen (OnlyStdout.lift _) fun items => ?_
  exact OnlyStdout.andThen (forOf_onlyStdout rt items) fun _ => OnlyStdout.ret _

/-- The callback of `.then` starts by printing the header. -/
theorem onResponses_header (rt : Runtime) (responses : JsVal) :
    ∃ rest, (onResponses rt responses).events = Event.stdout "Prediction results:" :: rest := by
  simp only [onResponses, Eff.bind_eq, consoleLog, formatLog, List.foldl_nil, Eff.andThen_emit]
  exact ⟨_, rfl⟩

theorem stdoutLines_resultEvents (rt : Runtime) (results : List JsVal) :
    stdoutLines (results.flatMap (resultEvents rt)) = results.flatMap (resultLines rt) := by
  induction results with
  | nil => rfl
  | cons r rest ih =>
    simp only [List.flatMap_cons, stdoutLines_append, ih]
    rfl

theorem length_flatMap_resultLines (rt : Runtime) (results : List JsVal) :
    (results.flatMap (resultLines rt)).length = 2 * results.length := by
  induction results with
  | nil => rfl
  | cons r rest ih =>
    simp only [List.flatMap_cons, List.length_append, ih, List.length_cons]
    simp [resultLines]
    omega

theorem onlyStdout_resultEvents (rt : Runtime) (results : List JsVal) :
    OnlyStdout (results.flatMap (resultEvents rt)) := by
  intro e he
  simp only [List.mem_flatMap, resultEvents] at he
  obtain ⟨r, _, hr⟩ := he
  simp only [List.mem_cons, List.mem_singleton, List.not_mem_nil, or_false] at hr
  rcases hr with h | h
  · exact ⟨_, h⟩
  · exact ⟨_, h⟩

/-- Element access in a list made of two entries per element. -/
theorem getElem?_flatMap_two {α β : Type} (f g : α → β) (l : List α) (i : Nat) :
    (l.flatMap fun r => [f r, g r])[2 * i]? = l[i]?.map f ∧
      (l.flatMap fun r => [f r, g r])[2 * i + 1]? = l[i]?.map g := by
  induction l generalizing i with
  | nil => simp
  | cons a rest ih =>
    cases i with
    | zero => simp
    | succ j =>
      have h1 : 2 * (j + 1) = 2 * j + 1 + 1 := by ring
      rw [h1]
      simpa using ih j

/-- The run of `predict` on a response with well-formed results. -/
theorem predict_of_wellFormed (rt : Runtime) (projectId computeRegion modelId filePath : JsVal)
    {ref : JsVal} {text : String} {responses first : JsVal} {results : List JsVal}
    (hpath : rt.modelPath projectId computeRegion modelId = .ok ref)
    (hread : rt.readFileSync filePath = .ok text)
    (hres : rt.remotePredict (buildRequest ref text)
      = .fulfilled responses)
    (hfirst : getProp responses "0" = .ok first)
    (hpayload : getProp first "payload" = .ok (.arr results))
    (hwf : ∀ r ∈ results, wellFormed r = true) :
    predict rt projectId computeRegion modelId filePath =
      ⟨.remoteCall (buildRequest ref text) ::
        .enter .onFulfilled :: .stdout "Prediction results:" ::
        results.flatMap (resultEvents rt), .ok ()⟩ := by
  rw [predict_of_fulfilled rt projectId computeRegion modelId filePath hpath hread hres,
    onResponses_of_payload rt hfirst hpayload, forOf_wellFormed rt results hwf]
  simp

/-- The loop body on an object without `classification`: the label line, then
a `TypeError` from reading `score` of `undefined`. -/
theorem printResult_unclassified (rt : Runtime) (fields : List (String × JsVal))
    (h : fields.lookup "classification" = none) :
    printResult rt (.obj fields) =
      ⟨[.stdout ("Predicted class name:  " ++
          match displayNameOf (.obj fields) with
          | .str s => s
          | w => rt.inspect w)],
        .error (.typeError (.readProperty "score"))⟩ := by
  simp [printResult, getProp, h, displayNameOf, Eff.bind_eq, Eff.andThen_lift_ok, consoleLog,
    Eff.andThen_emit, Eff.andThen_lift_error, formatLog]

/-- A property read either throws for every key or returns for every key. -/
theorem getProp_ok_of_ok {v : JsVal} {key : String} {x : JsVal}
    (h : getProp v key = .ok x) (key' : String) : ∃ y, getProp v key' = .ok y := by
  cases v <;> simp [getProp] at h ⊢

/-- The command handler passes the four options on to `predict`. -/
theorem predictCommand_of_reads (rt : Runtime) {opts p r m f : JsVal}
    (hp : getProp opts "projectId" = .ok p)
    (hr : getProp opts "computeRegion" = .ok r)
    (hm : getProp opts "modelId" = .ok m)
    (hf : getProp opts "filePath" = .ok f) :
    predictCommand rt opts = predict rt p r m f := by
  obtain ⟨s, hs⟩ := getProp_ok_of_ok hp "scoreThreshold"
  simp [predictCommand, hp, hr, hm, hf, hs, Eff.bind_eq, Eff.andThen_lift_ok, callPredict]

/-- The run of `predict` on a response whose payload list has well-formed
results followed by an object without `classification`. -/
theorem predict_of_unclassified (rt : Runtime) (projectId computeRegion modelId filePath : JsVal)
    {ref : JsVal} {text : String} {responses first : JsVal} {good later : List JsVal}
    {fields : List (String × JsVal)}
    (hpath : rt.modelPath projectId computeRegion modelId = .ok ref)
    (hread : rt.readFileSync filePath = .ok text)
    (hres : rt.remotePredict (buildRequest ref text)
      = .fulfilled responses)
    (hfirst : getProp responses "0" = .ok first)
    (hpayload : getProp first "payload" = .ok (.arr (good ++ .obj fields :: later)))
    (hwf : ∀ r ∈ good, wellFormed r = true)
    (hbad : fields.lookup "classification" = none) :
    predict rt projectId computeRegion modelId filePath =
      ⟨.remoteCall (buildRequest ref text) ::
        .enter .onFulfilled :: .stdout "Prediction results:" ::
        (good.flatMap (resultEvents rt) ++
          [.stdout ("Predicted class name:  " ++
              match displayNameOf (.obj fields) with
              | .str s => s
              | w => rt.inspect w),
            .enter .onRejected, .stderr (.typeError (.readProperty "score"))]), .ok ()⟩ := by
  have hloop : forOf (printResult rt) (good ++ .obj fields :: later) =
      ⟨good.flatMap (resultEvents rt) ++
        [.stdout ("Predicted class name:  " ++
          match displayNameOf (.obj fields) with
          | .str s => s
          | w => rt.inspect w)],
        .error (.typeError (.readProperty "score"))⟩ := by
    rw [forOf_wellFormed_append rt good _ hwf]
    simp only [forOf, Eff.bind_eq, printResult_unclassified rt fields hbad, Eff.andThen_mk_error]
  rw [predict_of_fulfilled rt projectId computeRegion modelId filePath hpath hread hres,
    onResponses_of_payload rt hfirst hpayload, hloop]
  simp

/-- The remote calls of `predict` when the model path is built and the file
is read: one, however the call settles. -/
theorem remoteCalls_predict (rt : Runtime) (projectId computeRegion modelId filePath : JsVal)
    {ref : JsVal} {text : String}
    (hpath : rt.modelPath projectId computeRegion modelId = .ok ref)
    (hread : rt.readFileSync filePath = .ok text) :
    remoteCalls (predict rt projectId computeRegion modelId filePath).events =
      [buildRequest ref text] := by
  cases hset : rt.remotePredict (buildRequest ref text) with
  | rejected e =>
    rw [predict_of_rejected rt projectId computeRegion modelId filePath hpath hread hset]
    simp [remoteCalls]
  | fulfilled v =>
    rw [predict_of_fulfilled rt projectId computeRegion modelId filePath hpath hread hset]
    have hon := (onResponses_onlyStdout rt v).observations.1
    generalize (onResponses rt v).events = evs at hon ⊢
    generalize (onResponses rt v).result = res
    cases res <;> simp [remoteCalls, remoteCalls_append, hon]

/-- A run of `predict` that throws has produced no event: the two steps that
can throw come before the remote call. -/
theorem predict_events_of_throw (rt : Runtime) (projectId computeRegion modelId filePath : JsVal)
    {e : JsVal} (h : (predict rt projectId computeRegion modelId filePath).result = .error e) :
    (predict rt projectId computeRegion modelId filePath).events = [] := by
  cases hpath : rt.modelPath projectId computeRegion modelId with
  | error x => rw [predict_of_path_error rt projectId computeRegion modelId filePath hpath]
  | ok ref =>
    cases hread : rt.readFileSync filePath with
    | error x => rw [predict_of_read_error rt projectId computeRegion modelId filePath hpath hread]
    | ok text =>
      exfalso
      cases hset : rt.remotePredict (buildRequest ref text) with
      | rejected x =>
        rw [predict_of_rejected rt projectId computeRegion modelId filePath hpath hread hset] at h
        simp at h
      | fulfilled v =>
        rw [predict_of_fulfilled rt projectId computeRegion modelId filePath hpath hread hset] at h
        simp at h

/-! ## Properties of the program -/

/-- C1: when the file is read and the remote call resolves with a response
whose first element has a payload list of N well-formed results, stdout has
the header and exactly N label/score pairs, the i-th pair carrying the
displayName and the score of the i-th result (nothing reordered, dropped,
duplicated or filtered), and no error is logged. -/
theorem predict_prints_results_in_order (rt : Runtime)
    (projectId computeRegion modelId filePath : JsVal)
    (ref : JsVal) (text : String) (responses first : JsVal) (results : List JsVal)
    (hpath : rt.modelPath projectId computeRegion modelId = .ok ref)
    (hread : rt.readFileSync filePath = .ok text)
    (hres : rt.remotePredict (buildRequest ref text)
      = .fulfilled responses)
    (hfirst : getProp responses "0" = .ok first)
    (hpayload : getProp first "payload" = .ok (.arr results))
    (hwf : ∀ r ∈ results, wellFormed r = true) :
    (stdoutLines (predict rt projectId computeRegion modelId filePath).events).length
        = 1 + 2 * results.length ∧
      (∀ i : Nat,
        (stdoutLines (predict rt projectId computeRegion modelId filePath).events)[2 * i + 1]?
            = results[i]?.map (fun r => "Predicted class name:  " ++ labelOf r) ∧
          (stdoutLines (predict rt projectId computeRegion modelId filePath).events)[2 * i + 2]?
            = results[i]?.map (fun r => "Predicted class score:  " ++ rt.inspect (scoreOf r))) ∧
      stderrValues (predict rt projectId computeRegion modelId filePath).events = [] := by
  rw [predict_of_wellFormed rt projectId computeRegion modelId filePath hpath hread hres hfirst
    hpayload hwf]
  have hlines : stdoutLines
      (Event.remoteCall (buildRequest ref text) ::
        Event.enter Handler.onFulfilled :: Event.stdout "Prediction results:" ::
        results.flatMap (resultEvents rt))
      = "Prediction results:" :: results.flatMap (resultLines rt) := by
    simp [stdoutLines, stdoutLines_resultEvents]
  have herr : stderrValues
      (Event.remoteCall (buildRequest ref text) ::
        Event.enter Handler.onFulfilled :: Event.stdout "Prediction results:" ::
        results.flatMap (resultEvents rt)) = [] := by
    simp [stderrValues, (onlyStdout_resultEvents rt results).observations.2.1]
  have hlen := length_flatMap_resultLines rt results
  refine ⟨?_, ?_, herr⟩
  · rw [hlines]
    simp [hlen]
    omega
  · intro i
    rw [hlines]
    have := getElem?_flatMap_two
      (fun r => "Predicted class name:  " ++ labelOf r)
      (fun r => "Predicted class score:  " ++ rt.inspect (scoreOf r)) results i
    simpa [resultLines] using this

/-- Witness of C1: the example runtime answering with two well-formed results. -/
theorem predict_prints_results_in_order_witness :
    (demoRuntime (.fulfilled (responsesOf [positiveResult, negativeResult]))).readFileSync demoPath
        = .ok "I love this product" ∧
      (∀ r ∈ [positiveResult, negativeResult], wellFormed r = true) ∧
      (stdoutLines (predict (demoRuntime (.fulfilled (responsesOf [positiveResult, negativeResult])))
        (.num "42") (.str "us-central1") (.str "TCN1") demoPath).events).length = 1 + 2 * 2 ∧
      stderrValues (predict (demoRuntime (.fulfilled (responsesOf [positiveResult, negativeResult])))
        (.num "42") (.str "us-central1") (.str "TCN1") demoPath).events = [] :=
  have h := predict_prints_results_in_order
    (demoRuntime (.fulfilled (responsesOf [positiveResult, negativeResult])))
    (.num "42") (.str "us-central1") (.str "TCN1") demoPath demoRef "I love this product"
    (responsesOf [positiveResult, negativeResult])
    (.obj [("payload", .arr [positiveResult, negativeResult])])
    [positiveResult, negativeResult] rfl rfl rfl rfl rfl (by decide)
  ⟨rfl, by decide, h.1, h.2.2⟩

/-- C2: when the file is read as `t`, the request that `predict` sends has
`payload.textSnippet.content` equal to `t`, untransformed, and
`payload.textSnippet.mimeType` equal to `text/plain`, whatever the other
arguments and the runtime are; and a request is sent whenever the model path
is built. -/
theorem request_payload_is_file_text (rt : Runtime)
    (projectId computeRegion modelId filePath : JsVal) (t : String)
    (hread : rt.readFileSync filePath = .ok t) :
    (∀ q ∈ remoteCalls (predict rt projectId computeRegion modelId filePath).events,
        q.payload.textSnippet.content = t ∧ q.payload.textSnippet.mimeType = "text/plain") ∧
      (∀ ref, rt.modelPath projectId computeRegion modelId = .ok ref →
        (remoteCalls (predict rt projectId computeRegion modelId filePath).events).map
            (fun q => (q.payload.textSnippet.content, q.payload.textSnippet.mimeType))
          = [(t, "text/plain")]) := by
  constructor
  · intro q hq
    cases hpath : rt.modelPath projectId computeRegion modelId with
    | error x =>
      rw [predict_of_path_error rt projectId computeRegion modelId filePath hpath] at hq
      simp [remoteCalls] at hq
    | ok ref =>
      rw [remoteCalls_predict rt projectId computeRegion modelId filePath hpath hread] at hq
      rw [List.mem_singleton.mp hq]
      exact ⟨rfl, rfl⟩
  · intro ref hpath
    rw [remoteCalls_predict rt projectId computeRegion modelId filePath hpath hread]
    rfl

/-- Witness of C2: the example file is sent as it is. -/
theorem request_payload_is_file_text_witness :
    (demoRuntime (.fulfilled (responsesOf [positiveResult]))).readFileSync demoPath
        = .ok "I love this product" ∧
      (remoteCalls (predict (demoRuntime (.fulfilled (responsesOf [positiveResult])))
          (.num "42") (.str "us-central1") (.str "TCN1") demoPath).events).map
          (fun q => (q.payload.textSnippet.content, q.payload.textSnippet.mimeType))
        = [("I love this product", "text/plain")] :=
  ⟨rfl, (request_payload_is_file_text (demoRuntime (.fulfilled (responsesOf [positiveResult])))
    (.num "42") (.str "us-central1") (.str "TCN1") demoPath "I love this product" rfl).2
    demoRef rfl⟩

/-- Counterexample to C3 as stated: the command is run without a model id and
with a missing file. Building the model path comes first and throws, so
`predict` throws that error and not the error of the read, which is never
attempted. -/
theorem unreadable_file_with_absent_modelId_throws_path_error :
    (demoRuntime (.fulfilled (responsesOf [positiveResult]))).readFileSync (.str "./missing.txt")
        = .error demoReadError ∧
      (predict (demoRuntime (.fulfilled (responsesOf [positiveResult])))
        (.num "42") (.str "us-central1") .undefined (.str "./missing.txt")).result
        = .error demoPathError ∧
      (predict (demoRuntime (.fulfilled (responsesOf [positiveResult])))
        (.num "42") (.str "us-central1") .undefined (.str "./missing.txt")).result
        ≠ .error demoReadError := by
  have hres : (predict (demoRuntime (.fulfilled (responsesOf [positiveResult])))
      (.num "42") (.str "us-central1") .undefined (.str "./missing.txt")).result
      = .error demoPathError := rfl
  refine ⟨rfl, hres, ?_⟩
  rw [hres]
  simp [demoPathError, demoReadError]

/-- C3, amended: when the read of the file fails with `e`, `predict` throws,
no remote call is issued, nothing is printed or logged, and neither callback
runs; the value thrown is `e` when building the model path, which comes before
the read, returned, and the error of that step when it threw. -/
theorem unreadable_file_aborts_before_remote_call (rt : Runtime)
    (projectId computeRegion modelId filePath : JsVal) (e : JsVal)
    (hread : rt.readFileSync filePath = .error e) :
    (∃ x, (predict rt projectId computeRegion modelId filePath).result = .error x) ∧
      remoteCalls (predict rt projectId computeRegion modelId filePath).events = [] ∧
      stdoutLines (predict rt projectId computeRegion modelId filePath).events = [] ∧
      stderrValues (predict rt projectId computeRegion modelId filePath).events = [] ∧
      handlersRun (predict rt projectId computeRegion modelId filePath).events = [] ∧
      (∀ ref, rt.modelPath projectId computeRegion modelId = .ok ref →
        (predict rt projectId computeRegion modelId filePath).result = .error e) ∧
      (∀ x, rt.modelPath projectId computeRegion modelId = .error x →
        (predict rt projectId computeRegion modelId filePath).result = .error x) := by
  cases hpath : rt.modelPath projectId computeRegion modelId with
  | error x =>
    rw [predict_of_path_error rt projectId computeRegion modelId filePath hpath]
    refine ⟨⟨x, rfl⟩, rfl, rfl, rfl, rfl, ?_, ?_⟩
    · intro ref h
      cases h
    · intro y h
      cases h
      rfl
  | ok ref =>
    rw [predict_of_read_error rt projectId computeRegion modelId filePath hpath hread]
    refine ⟨⟨e, rfl⟩, rfl, rfl, rfl, rfl, ?_, ?_⟩
    · intro _ _
      rfl
    · intro y h
      cases h

/-- Witness of the amended C3: a path that the example runtime cannot read,
with a model id for which the model path is built. -/
theorem unreadable_file_aborts_before_remote_call_witness :
    (demoRuntime (.fulfilled (responsesOf [positiveResult]))).readFileSync (.str "./missing.txt")
        = .error demoReadError ∧
      (predict (demoRuntime (.fulfilled (responsesOf [positiveResult])))
        (.num "42") (.str "us-central1") (.str "TCN1") (.str "./missing.txt")).result
        = .error demoReadError ∧
      remoteCalls (predict (demoRuntime (.fulfilled (responsesOf [positiveResult])))
        (.num "42") (.str "us-central1") (.str "TCN1") (.str "./missing.txt")).events = [] :=
  have h := unreadable_file_aborts_before_remote_call
    (demoRuntime (.fulfilled (responsesOf [positiveResult])))
    (.num "42") (.str "us-central1") (.str "TCN1") (.str "./missing.txt")
    demoReadError rfl
  ⟨rfl, h.2.2.2.2.2.1 demoRef rfl, h.2.1⟩

/-- C4: when the file is read and the remote call rejects with `e`, exactly
one error is logged, `e` itself, nothing is printed to stdout, only the
callback of `.catch` runs, and `predict` completes normally. -/
theorem rejection_is_logged_once (rt : Runtime)
    (projectId computeRegion modelId filePath : JsVal) (ref : JsVal) (text : String)
    (e : JsVal)
    (hpath : rt.modelPath projectId computeRegion modelId = .ok ref)
    (hread : rt.readFileSync filePath = .ok text)
    (hrej : rt.remotePredict (buildRequest ref text)
      = .rejected e) :
    stderrValues (predict rt projectId computeRegion modelId filePath).events = [e] ∧
      stdoutLines (predict rt projectId computeRegion modelId filePath).events = [] ∧
      handlersRun (predict rt projectId computeRegion modelId filePath).events = [.onRejected] ∧
      (predict rt projectId computeRegion modelId filePath).result = .ok () := by
  rw [predict_of_rejected rt projectId computeRegion modelId filePath hpath hread hrej]
  exact ⟨rfl, rfl, rfl, rfl⟩

/-- Witness of C4: the example runtime with a rejecting remote call. -/
theorem rejection_is_logged_once_witness :
    (demoRuntime (.rejected (.str "quota exceeded"))).readFileSync demoPath
        = .ok "I love this product" ∧
      stderrValues (predict (demoRuntime (.rejected (.str "quota exceeded")))
        (.num "42") (.str "us-central1") (.str "TCN1") demoPath).events
        = [.str "quota exceeded"] ∧
      stdoutLines (predict (demoRuntime (.rejected (.str "quota exceeded")))
        (.num "42") (.str "us-central1") (.str "TCN1") demoPath).events = [] :=
  have h := rejection_is_logged_once (demoRuntime (.rejected (.str "quota exceeded")))
    (.num "42") (.str "us-central1") (.str "TCN1") demoPath demoRef "I love this product"
    (.str "quota exceeded") rfl rfl rfl
  ⟨rfl, h.1, h.2.1⟩

/-- C5: on a successful response with N well-formed results stdout is exactly
1 + 2N lines: the header `Prediction results:` (alone when N = 0), then for
each result in turn `Predicted class name:  ` followed by its displayName and
`Predicted class score:  ` followed by its score; for the file content
`I love this product` and the single result Positive with score 0.92 the
lines after the header are `Predicted class name:  Positive` and
`Predicted class score:  0.92`. -/
theorem stdout_is_header_and_two_lines_per_result (rt : Runtime)
    (projectId computeRegion modelId filePath : JsVal)
    (ref : JsVal) (text : String) (responses first : JsVal) (results : List JsVal)
    (hpath : rt.modelPath projectId computeRegion modelId = .ok ref)
    (hread : rt.readFileSync filePath = .ok text)
    (hres : rt.remotePredict (buildRequest ref text)
      = .fulfilled responses)
    (hfirst : getProp responses "0" = .ok first)
    (hpayload : getProp first "payload" = .ok (.arr results))
    (hwf : ∀ r ∈ results, wellFormed r = true) :
    stdoutLines (predict rt projectId computeRegion modelId filePath).events =
        "Prediction results:" :: results.flatMap (fun r =>
          ["Predicted class name:  " ++ labelOf r,
           "Predicted class score:  " ++ rt.inspect (scoreOf r)]) ∧
      (stdoutLines (predict rt projectId computeRegion modelId filePath).events).length =
        1 + 2 * results.length ∧
      (results = [] →
        stdoutLines (predict rt projectId computeRegion modelId filePath).events =
          ["Prediction results:"]) ∧
      (text = "I love this product" → results = [positiveResult] →
        rt.inspect (.num "0.92") = "0.92" →
        stdoutLines (predict rt projectId computeRegion modelId filePath).events =
          ["Prediction results:", "Predicted class name:  Positive",
           "Predicted class score:  0.92"]) := by
  have hlines : stdoutLines (predict rt projectId computeRegion modelId filePath).events =
      "Prediction results:" :: results.flatMap (resultLines rt) := by
    rw [predict_of_wellFormed rt projectId computeRegion modelId filePath hpath hread hres hfirst
      hpayload hwf]
    simp [stdoutLines, stdoutLines_resultEvents]
  refine ⟨hlines, ?_, ?_, ?_⟩
  · rw [hlines, List.length_cons, length_flatMap_resultLines]
    omega
  · intro hnil
    rw [hlines, hnil]
    rfl
  · intro _ hone hinspect
    rw [hlines, hone]
    have hs : scoreOf positiveResult = .num "0.92" := rfl
    have hl : labelOf positiveResult = "Positive" := rfl
    simp [resultLines, hs, hl, hinspect]

/-- Witness of C5: the scenario of the specification on the example runtime. -/
theorem stdout_is_header_and_two_lines_per_result_witness :
    (demoRuntime (.fulfilled (responsesOf [positiveResult]))).readFileSync demoPath
        = .ok "I love this product" ∧
      (∀ r ∈ [positiveResult], wellFormed r = true) ∧
      (demoRuntime (.fulfilled (responsesOf [positiveResult]))).inspect (.num "0.92") = "0.92" ∧
      stdoutLines (predict (demoRuntime (.fulfilled (responsesOf [positiveResult])))
        (.num "42") (.str "us-central1") (.str "TCN1") demoPath).events =
        ["Prediction results:", "Predicted class name:  Positive",
         "Predicted class score:  0.92"] :=
  have h := stdout_is_header_and_two_lines_per_result
    (demoRuntime (.fulfilled (responsesOf [positiveResult])))
    (.num "42") (.str "us-central1") (.str "TCN1") demoPath demoRef "I love this product"
    (responsesOf [positiveResult]) (.obj [("payload", .arr [positiveResult])])
    [positiveResult] rfl rfl rfl rfl rfl (by decide)
  ⟨rfl, by decide, rfl, h.2.2.2 rfl rfl rfl⟩

/-- Counterexample to C6 as stated: the file is read, but the command was run
without a model id; building the model path throws before the read, and no
remote call is issued. -/
theorem no_remote_call_when_model_path_throws :
    (demoRuntime (.fulfilled (responsesOf [positiveResult]))).readFileSync demoPath
        = .ok "I love this product" ∧
      remoteCalls (predict (demoRuntime (.fulfilled (responsesOf [positiveResult])))
        (.num "42") (.str "us-central1") .undefined demoPath).events = [] ∧
      (remoteCalls (predict (demoRuntime (.fulfilled (responsesOf [positiveResult])))
        (.num "42") (.str "us-central1") .undefined demoPath).events).length ≠ 1 ∧
      (predict (demoRuntime (.fulfilled (responsesOf [positiveResult])))
        (.num "42") (.str "us-central1") .undefined demoPath).result = .error demoPathError := by
  have hcalls : remoteCalls (predict (demoRuntime (.fulfilled (responsesOf [positiveResult])))
      (.num "42") (.str "us-central1") .undefined demoPath).events = [] := rfl
  refine ⟨rfl, hcalls, ?_, rfl⟩
  rw [hcalls]
  decide

/-- C6, amended: when the file is read and building the model path of
(projectId, computeRegion, modelId) returns a reference, exactly one remote
call is issued, whether it resolves or rejects; its name is that reference,
its payload is the text payload and its params are empty. When building the
model path throws, no remote call is issued. -/
theorem exactly_one_remote_call (rt : Runtime)
    (projectId computeRegion modelId filePath : JsVal) (text : String)
    (hread : rt.readFileSync filePath = .ok text) :
    (∀ ref, rt.modelPath projectId computeRegion modelId = .ok ref →
      remoteCalls (predict rt projectId computeRegion modelId filePath).events =
        [{ name := ref
           payload := { textSnippet := { content := text, mimeType := "text/plain" } }
           params := [] }]) ∧
      (∀ x, rt.modelPath projectId computeRegion modelId = .error x →
        remoteCalls (predict rt projectId computeRegion modelId filePath).events = []) := by
  constructor
  · intro ref hpath
    rw [remoteCalls_predict rt projectId computeRegion modelId filePath hpath hread]
    rfl
  · intro x hpath
    rw [predict_of_path_error rt projectId computeRegion modelId filePath hpath]
    rfl

/-- Witness of the amended C6: the one request of the example runtime, on a
rejecting remote call. -/
theorem exactly_one_remote_call_witness :
    (demoRuntime (.rejected .null)).readFileSync demoPath = .ok "I love this product" ∧
      remoteCalls (predict (demoRuntime (.rejected .null))
        (.num "42") (.str "us-central1") (.str "TCN1") demoPath).events =
      [{ name := .str "projects/42/locations/us-central1/models/TCN1"
         payload := { textSnippet := { content := "I love this product", mimeType := "text/plain" } }
         params := [] }] :=
  ⟨rfl, (exactly_one_remote_call (demoRuntime (.rejected .null))
    (.num "42") (.str "us-central1") (.str "TCN1") demoPath "I love this product" rfl).1
    demoRef rfl⟩

/-- C7: the scoreThreshold option has no effect. Two runs of the command whose
options agree on every key but `scoreThreshold` are the same run: same request,
same lines printed, same values logged, same completion. And whatever the
options hold for `scoreThreshold`, every result of a well-formed response is
printed, none is filtered by its score. -/
theorem scoreThreshold_has_no_effect (rt : Runtime) (opts1 opts2 : JsVal)
    (hsame : ∀ key : String, key ≠ "scoreThreshold" → getProp opts1 key = getProp opts2 key) :
    predictCommand rt opts1 = predictCommand rt opts2 ∧
      ∀ (p r m f ref : JsVal) (text : String) (responses first : JsVal) (results : List JsVal),
        getProp opts1 "projectId" = .ok p → getProp opts1 "computeRegion" = .ok r →
        getProp opts1 "modelId" = .ok m → getProp opts1 "filePath" = .ok f →
        rt.modelPath p r m = .ok ref →
        rt.readFileSync f = .ok text →
        rt.remotePredict (buildRequest ref text) = .fulfilled responses →
        getProp responses "0" = .ok first →
        getProp first "payload" = .ok (.arr results) →
        (∀ x ∈ results, wellFormed x = true) →
        stdoutLines (predictCommand rt opts2).events =
          "Prediction results:" :: results.flatMap (fun x =>
            ["Predicted class name:  " ++ labelOf x,
             "Predicted class score:  " ++ rt.inspect (scoreOf x)]) := by
  have hp := hsame "projectId" (by decide)
  have hr := hsame "computeRegion" (by decide)
  have hm := hsame "modelId" (by decide)
  have hf := hsame "filePath" (by decide)
  have heq : predictCommand rt opts1 = predictCommand rt opts2 := by
    cases h1 : getProp opts1 "projectId" with
    | error e =>
      have h2 : getProp opts2 "projectId" = .error e := by rw [← hp, h1]
      simp [predictCommand, h1, h2, Eff.bind_eq, Eff.andThen_lift_error]
    | ok p =>
      have h2 : getProp opts2 "projectId" = .ok p := by rw [← hp, h1]
      obtain ⟨r, hr1⟩ := getProp_ok_of_ok h1 "computeRegion"
      obtain ⟨m, hm1⟩ := getProp_ok_of_ok h1 "modelId"
      obtain ⟨f, hf1⟩ := getProp_ok_of_ok h1 "filePath"
      rw [predictCommand_of_reads rt h1 hr1 hm1 hf1,
        predictCommand_of_reads rt h2 (hr ▸ hr1) (hm ▸ hm1) (hf ▸ hf1)]
  refine ⟨heq, ?_⟩
  intro p r m f ref text responses first results h1 hr1 hm1 hf1 hpath hread hres hfirst hpayload
    hwf
  rw [← heq, predictCommand_of_reads rt h1 hr1 hm1 hf1,
    predict_of_wellFormed rt p r m f hpath hread hres hfirst hpayload hwf]
  simp only [stdoutLines, stdoutLines_resultEvents]
  rfl

/-- Witness of C7: a threshold of 0.9 on the command line against the default
0.5; the result with score 0.08 is printed in both runs. -/
theorem scoreThreshold_has_no_effect_witness :
    (∀ key : String, key ≠ "scoreThreshold" →
        getProp (parsedOptions demoEnv [("modelId", .str "TCN1"), ("scoreThreshold", .str "0.9")])
          key = getProp (parsedOptions demoEnv [("modelId", .str "TCN1")]) key) ∧
      predictCommand (demoRuntime (.fulfilled (responsesOf [positiveResult, negativeResult])))
          (parsedOptions demoEnv [("modelId", .str "TCN1"), ("scoreThreshold", .str "0.9")]) =
        predictCommand (demoRuntime (.fulfilled (responsesOf [positiveResult, negativeResult])))
          (parsedOptions demoEnv [("modelId", .str "TCN1")]) ∧
      stdoutLines (predictCommand
          (demoRuntime (.fulfilled (responsesOf [positiveResult, negativeResult])))
          (parsedOptions demoEnv [("modelId", .str "TCN1")])).events =
        ["Prediction results:", "Predicted class name:  Positive",
         "Predicted class score:  0.92", "Predicted class name:  Negative",
         "Predicted class score:  0.08"] :=
  have hkeys : ∀ key : String, key ≠ "scoreThreshold" →
      getProp (parsedOptions demoEnv [("modelId", .str "TCN1"), ("scoreThreshold", .str "0.9")])
        key = getProp (parsedOptions demoEnv [("modelId", .str "TCN1")]) key := by
    intro key hkey
    have hne : (key == "scoreThreshold") = false := by simpa using hkey
    simp [parsedOptions, optionDefaults, getProp, List.lookup, hne]
  have h := scoreThreshold_has_no_effect
    (demoRuntime (.fulfilled (responsesOf [positiveResult, negativeResult])))
    (parsedOptions demoEnv [("modelId", .str "TCN1"), ("scoreThreshold", .str "0.9")])
    (parsedOptions demoEnv [("modelId", .str "TCN1")]) hkeys
  ⟨hkeys, h.1,
    h.2 (.str "42") (.str "us-central1") (.str "TCN1") demoPath demoRef "I love this product"
      (responsesOf [positiveResult, negativeResult])
      (.obj [("payload", .arr [positiveResult, negativeResult])])
      [positiveResult, negativeResult] rfl rfl rfl rfl rfl rfl rfl rfl rfl (by decide)⟩

/-- Counterexample to C8 as stated: the remote call resolves with
`[{payload: [{displayName: "Neutral"}]}]`. The callback of `.then` runs,
prints two lines and throws; the callback of `.catch` runs as well and logs
the error. Both callbacks run, and the run has printed lines and a logged
error. -/
theorem both_handlers_run_on_throwing_callback :
    handlersRun (predict (demoRuntime (.fulfilled (responsesOf [unclassifiedResult])))
        (.num "42") (.str "us-central1") (.str "TCN1") demoPath).events
        = [.onFulfilled, .onRejected] ∧
      stdoutLines (predict (demoRuntime (.fulfilled (responsesOf [unclassifiedResult])))
        (.num "42") (.str "us-central1") (.str "TCN1") demoPath).events
        = ["Prediction results:", "Predicted class name:  Neutral"] ∧
      stderrValues (predict (demoRuntime (.fulfilled (responsesOf [unclassifiedResult])))
        (.num "42") (.str "us-central1") (.str "TCN1") demoPath).events
        = [.typeError (.readProperty "score")] ∧
      ¬ (handlersRun (predict (demoRuntime (.fulfilled (responsesOf [unclassifiedResult])))
          (.num "42") (.str "us-central1") (.str "TCN1") demoPath).events = [.onFulfilled] ∨
        handlersRun (predict (demoRuntime (.fulfilled (responsesOf [unclassifiedResult])))
          (.num "42") (.str "us-central1") (.str "TCN1") demoPath).events = [.onRejected]) ∧
      ¬ (stderrValues (predict (demoRuntime (.fulfilled (responsesOf [unclassifiedResult])))
          (.num "42") (.str "us-central1") (.str "TCN1") demoPath).events = [] ∨
        stdoutLines (predict (demoRuntime (.fulfilled (responsesOf [unclassifiedResult])))
          (.num "42") (.str "us-central1") (.str "TCN1") demoPath).events = []) := by
  have hh : handlersRun (predict (demoRuntime (.fulfilled (responsesOf [unclassifiedResult])))
      (.num "42") (.str "us-central1") (.str "TCN1") demoPath).events
      = [.onFulfilled, .onRejected] := rfl
  have ho : stdoutLines (predict (demoRuntime (.fulfilled (responsesOf [unclassifiedResult])))
      (.num "42") (.str "us-central1") (.str "TCN1") demoPath).events
      = ["Prediction results:", "Predicted class name:  Neutral"] := by decide
  have he : stderrValues (predict (demoRuntime (.fulfilled (responsesOf [unclassifiedResult])))
      (.num "42") (.str "us-central1") (.str "TCN1") demoPath).events
      = [.typeError (.readProperty "score")] := rfl
  refine ⟨hh, ho, he, ?_, ?_⟩
  · rw [hh]
    simp
  · rw [he, ho]
    simp

/-- C8, amended: when the remote call is reached (the model path is built and
the file is read), a rejection of the remote call runs
the callback of `.catch` alone, which logs the rejection once, and nothing is
printed; a resolution runs the callback of `.then` first, which prints at
least the header; when that callback returns, as it does on a response whose
first element has a payload list of well-formed results, the callback of
`.catch` does not run and nothing is logged; when it throws, the callback of
`.catch` runs after it and logs the thrown value once, and the lines already
printed stay. -/
theorem handlers_by_outcome (rt : Runtime)
    (projectId computeRegion modelId filePath : JsVal) (ref : JsVal) (text : String)
    (hpath : rt.modelPath projectId computeRegion modelId = .ok ref)
    (hread : rt.readFileSync filePath = .ok text) :
    (∀ e, rt.remotePredict (buildRequest ref text)
        = .rejected e →
      handlersRun (predict rt projectId computeRegion modelId filePath).events = [.onRejected] ∧
      stdoutLines (predict rt projectId computeRegion modelId filePath).events = [] ∧
      stderrValues (predict rt projectId computeRegion modelId filePath).events = [e]) ∧
    (∀ v w, rt.remotePredict (buildRequest ref text)
        = .fulfilled v → (onResponses rt v).result = .ok w →
      handlersRun (predict rt projectId computeRegion modelId filePath).events = [.onFulfilled] ∧
      stderrValues (predict rt projectId computeRegion modelId filePath).events = [] ∧
      stdoutLines (predict rt projectId computeRegion modelId filePath).events
        = stdoutLines (onResponses rt v).events ∧
      ∃ rest, stdoutLines (predict rt projectId computeRegion modelId filePath).events
        = "Prediction results:" :: rest) ∧
    (∀ v e, rt.remotePredict (buildRequest ref text)
        = .fulfilled v → (onResponses rt v).result = .error e →
      handlersRun (predict rt projectId computeRegion modelId filePath).events
        = [.onFulfilled, .onRejected] ∧
      stderrValues (predict rt projectId computeRegion modelId filePath).events = [e] ∧
      stdoutLines (predict rt projectId computeRegion modelId filePath).events
        = stdoutLines (onResponses rt v).events ∧
      ∃ rest, stdoutLines (predict rt projectId computeRegion modelId filePath).events
        = "Prediction results:" :: rest) ∧
    (∀ responses first results, getProp responses "0" = .ok first →
      getProp first "payload" = .ok (.arr results) →
      (∀ r ∈ results, wellFormed r = true) →
      (onResponses rt responses).result = .ok .undefined) := by
  refine ⟨?_, ?_, ?_, ?_⟩
  · intro e hrej
    rw [predict_of_rejected rt projectId computeRegion modelId filePath hpath hread hrej]
    exact ⟨rfl, rfl, rfl⟩
  · intro v w hres hok
    rw [predict_of_fulfilled rt projectId computeRegion modelId filePath hpath hread hres]
    obtain ⟨_, herr, hrun⟩ := (onResponses_onlyStdout rt v).observations
    obtain ⟨rest, hhead⟩ := onResponses_header rt v
    generalize (onResponses rt v).events = evs at herr hrun hhead ⊢
    generalize (onResponses rt v).result = res at hok
    subst hok
    refine ⟨?_, ?_, ?_, stdoutLines rest, ?_⟩
    · simp [handlersRun, handlersRun_append, hrun]
    · simp [stderrValues, stderrValues_append, herr]
    · simp [stdoutLines, stdoutLines_append]
    · simp [stdoutLines, stdoutLines_append, hhead]
  · intro v e hres hthrow
    rw [predict_of_fulfilled rt projectId computeRegion modelId filePath hpath hread hres]
    obtain ⟨_, herr, hrun⟩ := (onResponses_onlyStdout rt v).observations
    obtain ⟨rest, hhead⟩ := onResponses_header rt v
    generalize (onResponses rt v).events = evs at herr hrun hhead ⊢
    generalize (onResponses rt v).result = res at hthrow
    subst hthrow
    refine ⟨?_, ?_, ?_, stdoutLines rest, ?_⟩
    · simp [handlersRun, handlersRun_append, hrun]
    · simp [stderrValues, stderrValues_append, herr]
    · simp [stdoutLines, stdoutLines_append]
    · simp [stdoutLines, stdoutLines_append, hhead]
  · intro responses first results hfirst hpayload hwf
    rw [onResponses_of_payload rt hfirst hpayload, forOf_wellFormed rt results hwf]

/-- Witness of the amended C8: a response without a first element makes the
callback of `.then` throw after the header, and the callback of `.catch` logs
the error. -/
theorem handlers_by_outcome_witness :
    (demoRuntime (.fulfilled (.arr []))).readFileSync demoPath = .ok "I love this product" ∧
      (onResponses (demoRuntime (.fulfilled (.arr []))) (.arr [])).result
        = .error (.typeError (.readProperty "payload")) ∧
      handlersRun (predict (demoRuntime (.fulfilled (.arr [])))
        (.num "42") (.str "us-central1") (.str "TCN1") demoPath).events
        = [.onFulfilled, .onRejected] ∧
      stderrValues (predict (demoRuntime (.fulfilled (.arr [])))
        (.num "42") (.str "us-central1") (.str "TCN1") demoPath).events
        = [.typeError (.readProperty "payload")] :=
  have h := (handlers_by_outcome (demoRuntime (.fulfilled (.arr [])))
    (.num "42") (.str "us-central1") (.str "TCN1") demoPath demoRef "I love this product"
    rfl rfl).2.2.1
    (.arr []) (.typeError (.readProperty "payload")) rfl rfl
  ⟨rfl, rfl, h.1, h.2.1⟩

/-- C10: on a successful response whose payload list has k well-formed
results followed by a result without classification field, `predict` prints
the header, the k label/score pairs and the label line of result k+1, then the
callback of `.catch` logs exactly one error, the one raised by the callback of
`.then`; nothing is printed for a later result, what was printed stays, and
the run has both printed lines and a logged error. -/
theorem unclassified_result_prints_label_then_logs (rt : Runtime)
    (projectId computeRegion modelId filePath : JsVal)
    (ref : JsVal) (text : String) (responses first : JsVal) (good later : List JsVal)
    (fields : List (String × JsVal))
    (hpath : rt.modelPath projectId computeRegion modelId = .ok ref)
    (hread : rt.readFileSync filePath = .ok text)
    (hres : rt.remotePredict (buildRequest ref text)
      = .fulfilled responses)
    (hfirst : getProp responses "0" = .ok first)
    (hpayload : getProp first "payload" = .ok (.arr (good ++ .obj fields :: later)))
    (hwf : ∀ r ∈ good, wellFormed r = true)
    (hbad : fields.lookup "classification" = none) :
    stdoutLines (predict rt projectId computeRegion modelId filePath).events =
        "Prediction results:" :: (good.flatMap (fun r =>
          ["Predicted class name:  " ++ labelOf r,
           "Predicted class score:  " ++ rt.inspect (scoreOf r)]) ++
          ["Predicted class name:  " ++
            match displayNameOf (.obj fields) with
            | .str s => s
            | w => rt.inspect w]) ∧
      stderrValues (predict rt projectId computeRegion modelId filePath).events =
        [.typeError (.readProperty "score")] ∧
      handlersRun (predict rt projectId computeRegion modelId filePath).events =
        [.onFulfilled, .onRejected] ∧
      (∃ before, (predict rt projectId computeRegion modelId filePath).events =
        before ++ [.enter .onRejected, .stderr (.typeError (.readProperty "score"))]) ∧
      (predict rt projectId computeRegion modelId filePath).result = .ok () := by
  rw [predict_of_unclassified rt projectId computeRegion modelId filePath hpath hread hres hfirst
    hpayload hwf hbad]
  have hobs := (onlyStdout_resultEvents rt good).observations
  refine ⟨?_, ?_, ?_, ?_, rfl⟩
  · simp only [stdoutLines, stdoutLines_append, stdoutLines_resultEvents]
    rfl
  · simp [stderrValues, stderrValues_append, hobs.2.1]
  · simp [handlersRun, handlersRun_append, hobs.2.2]
  · refine ⟨.remoteCall (buildRequest ref text) ::
      .enter .onFulfilled :: .stdout "Prediction results:" ::
      (good.flatMap (resultEvents rt) ++
        [.stdout ("Predicted class name:  " ++
          match displayNameOf (.obj fields) with
          | .str s => s
          | w => rt.inspect w)]), ?_⟩
    simp

/-- Witness of C10: one well-formed result, then one without classification,
then a well-formed one that is never printed. -/
theorem unclassified_result_prints_label_then_logs_witness :
    (demoRuntime (.fulfilled (responsesOf [positiveResult, unclassifiedResult, negativeResult]))
        ).readFileSync demoPath = .ok "I love this product" ∧
      (∀ r ∈ [positiveResult], wellFormed r = true) ∧
      List.lookup "classification" [("displayName", JsVal.str "Neutral")] = none ∧
      stdoutLines (predict
        (demoRuntime (.fulfilled (responsesOf [positiveResult, unclassifiedResult, negativeResult])))
        (.num "42") (.str "us-central1") (.str "TCN1") demoPath).events =
        ["Prediction results:", "Predicted class name:  Positive",
         "Predicted class score:  0.92", "Predicted class name:  Neutral"] ∧
      stderrValues (predict
        (demoRuntime (.fulfilled (responsesOf [positiveResult, unclassifiedResult, negativeResult])))
        (.num "42") (.str "us-central1") (.str "TCN1") demoPath).events =
        [.typeError (.readProperty "score")] :=
  have h := unclassified_result_prints_label_then_logs
    (demoRuntime (.fulfilled (responsesOf [positiveResult, unclassifiedResult, negativeResult])))
    (.num "42") (.str "us-central1") (.str "TCN1") demoPath demoRef "I love this product"
    (responsesOf [positiveResult, unclassifiedResult, negativeResult])
    (.obj [("payload", .arr [positiveResult, unclassifiedResult, negativeResult])])
    [positiveResult] [negativeResult] [("displayName", .str "Neutral")]
    rfl rfl rfl rfl rfl (by decide) rfl
  ⟨rfl, by decide, rfl, h.1, h.2.1⟩

end AutomlPredict
